import Mathlib

/-!
Shallow embedding of `src/config.rs` of the Golem-Base/discv5 repository:
the `Config` record of discovery-protocol parameters and the `ConfigBuilder`
with its setter methods and `build` method.  Rust methods that can panic
(`enr_peer_update_min`, `build`) are embedded as `Option`-returning
functions, `none` standing for the panic.  External types consumed by
`config.rs` but whose sources are outside this file's repository snapshot
(`Duration`, `Enr`, `RateLimiter`, `PermitBanList`, `Executor`,
`ListenConfig`, `Ipv4Cidr`, `MAX_NODES_PER_BUCKET`) are modelled from the
specification's words, minimally but faithfully.
-/

namespace Discv5

/-- Modelled from the spec: `std::time::Duration` — a non-negative span of
time; only whole-second construction (`Duration::from_secs`) is used by
`config.rs`, so the embedding stores nanoseconds as a natural number. -/
structure Duration where
  nanos : Nat
deriving DecidableEq, Repr

/-- `Duration::from_secs`. -/
def Duration.from_secs (s : Nat) : Duration :=
  ⟨s * 1000000000⟩

instance : LT Duration := ⟨fun a b => a.nanos < b.nanos⟩

instance (a b : Duration) : Decidable (a < b) :=
  inferInstanceAs (Decidable (a.nanos < b.nanos))

/-- Modelled from the spec: a Peer Record (`Enr`) is a "signed,
monotonically-versioned tuple of (identity, IP, port, sequence number,
capability fields)"; `config.rs` only passes it opaquely to the table
filter, so a minimal concrete stand-in suffices. -/
structure Enr where
  identity : Nat
  seq : Nat
deriving DecidableEq, Repr

/-- Modelled from the spec: the abuse filter's "token-bucket-style counters
at three granularities — total inbound rate, per-node rate, per-IP rate —
each independently configurable (burst size + steady rate)".  Each
granularity holds a count `n` admitted every `Duration`; the total limit is
mandatory, the per-node and per-IP limits optional. -/
structure RateLimiter where
  total : Nat × Duration
  node : Option (Nat × Duration)
  ip : Option (Nat × Duration)
deriving DecidableEq, Repr

/-- Modelled from the spec: the builder for `RateLimiter`; its `build`
fails unless the total rate limit has been specified. -/
structure RateLimiterBuilder where
  total : Option (Nat × Duration)
  node : Option (Nat × Duration)
  ip : Option (Nat × Duration)
deriving DecidableEq, Repr

def RateLimiterBuilder.new : RateLimiterBuilder :=
  ⟨none, none, none⟩

/-- `RateLimiterBuilder::total_n_every`: allow `n` total inbound requests
every `d`. -/
def RateLimiterBuilder.total_n_every (b : RateLimiterBuilder) (n : Nat)
    (d : Duration) : RateLimiterBuilder :=
  { b with total := some (n, d) }

/-- `RateLimiterBuilder::node_n_every`: allow `n` requests from one node
every `d`. -/
def RateLimiterBuilder.node_n_every (b : RateLimiterBuilder) (n : Nat)
    (d : Duration) : RateLimiterBuilder :=
  { b with node := some (n, d) }

/-- `RateLimiterBuilder::ip_n_every`: allow `n` requests from one IP every
`d`. -/
def RateLimiterBuilder.ip_n_every (b : RateLimiterBuilder) (n : Nat)
    (d : Duration) : RateLimiterBuilder :=
  { b with ip := some (n, d) }

/-- `RateLimiterBuilder::build`: fails (`none`) when no total rate limit
was specified. -/
def RateLimiterBuilder.build (b : RateLimiterBuilder) : Option RateLimiter :=
  match b.total with
  | some t => some ⟨t, b.node, b.ip⟩
  | none => none

/-- Modelled from the spec: "A permit list can force-admit specific
IPs/node-ids regardless of counters; a ban list can force-drop regardless
of counters."  `PermitBanList::default()` is all-empty. -/
structure PermitBanList where
  permit_ips : List Nat
  ban_ips : List Nat
  permit_nodes : List Nat
  ban_nodes : List Nat
deriving DecidableEq, Repr

def PermitBanList.default : PermitBanList :=
  ⟨[], [], [], []⟩

/-- Modelled from the spec: the external "generic task/timer execution
facility".  `TokioExecutor` is the default the builder fills in; a custom
executor is identified by an opaque tag. -/
inductive Executor where
  | tokioExecutor : Executor
  | custom (tag : Nat) : Executor
deriving DecidableEq, Repr

/-- Modelled from the spec: `socket::ListenConfig`, the "configuration for
the sockets to listen on"; `config.rs` only stores it, so an opaque stand-in
of an address and port suffices. -/
structure ListenConfig where
  ip : Nat
  port : Nat
deriving DecidableEq, Repr

/-- Modelled from the spec: an IPv4 CIDR range (`cidr::Ipv4Cidr`), the
"address-acceptance allow-range"; `config.rs` only stores it. -/
structure Ipv4Cidr where
  addr : Nat
  network_length : Nat
deriving DecidableEq, Repr

/-- Modelled from the spec: `kbucket::MAX_NODES_PER_BUCKET`, the bucket
capacity — "ordered container of up to a fixed capacity (e.g., 16)"; the
doc comments in `config.rs` state the bucket size is 16. -/
def MAX_NODES_PER_BUCKET : Nat := 16

/-- The `Config` struct of `src/config.rs`: configuration parameters that
define the performance of the discovery network.  `request_retries` is a
`u8` and the `usize` fields are embedded as `Nat` (they are only stored,
never subjected to overflowing arithmetic in `config.rs`). -/
structure Config where
  enable_packet_filter : Bool
  request_timeout : Duration
  vote_duration : Duration
  query_peer_timeout : Duration
  query_timeout : Duration
  request_retries : Nat
  session_timeout : Duration
  session_cache_capacity : Nat
  enr_update : Bool
  max_nodes_response : Nat
  enr_peer_update_min : Nat
  query_parallelism : Nat
  ip_limit : Bool
  incoming_bucket_limit : Nat
  table_filter : Enr → Bool
  ping_interval : Duration
  report_discovered_peers : Bool
  filter_rate_limiter : Option RateLimiter
  filter_max_nodes_per_ip : Option Nat
  filter_max_bans_per_ip : Option Nat
  permit_ban_list : PermitBanList
  ban_duration : Option Duration
  auto_nat_listen_duration : Option Duration
  executor : Option Executor
  listen_config : ListenConfig
  allowed_cidr : Option Ipv4Cidr

/-- The `ConfigBuilder` struct of `src/config.rs`: holds the `Config`
under construction. -/
structure ConfigBuilder where
  config : Config

/-- The default inbound rate limiter constructed at the top of
`ConfigBuilder::new`: total 10, per-node 8, per-IP 9, each per second. -/
def defaultFilterRateLimiter : Option RateLimiter :=
  (((RateLimiterBuilder.new.total_n_every 10
      (Duration.from_secs 1)).node_n_every 8
      (Duration.from_secs 1)).ip_n_every 9
      (Duration.from_secs 1)).build

/-- `ConfigBuilder::new`: sets the default value of every configuration
field. -/
def ConfigBuilder.new (listen_config : ListenConfig) : ConfigBuilder :=
  { config :=
    { enable_packet_filter := false
      request_timeout := Duration.from_secs 1
      vote_duration := Duration.from_secs 120
      query_peer_timeout := Duration.from_secs 2
      query_timeout := Duration.from_secs 60
      request_retries := 1
      session_timeout := Duration.from_secs 86400
      session_cache_capacity := 1000
      enr_update := true
      max_nodes_response := 16
      enr_peer_update_min := 10
      query_parallelism := 3
      ip_limit := false
      incoming_bucket_limit := MAX_NODES_PER_BUCKET
      table_filter := fun _ => true
      ping_interval := Duration.from_secs 300
      report_discovered_peers := true
      filter_rate_limiter := defaultFilterRateLimiter
      filter_max_nodes_per_ip := some 10
      filter_max_bans_per_ip := some 5
      permit_ban_list := PermitBanList.default
      ban_duration := some (Duration.from_secs 3600)
      auto_nat_listen_duration := some (Duration.from_secs 300)
      executor := none
      listen_config := listen_config
      allowed_cidr := none } }

/-- `ConfigBuilder::enable_packet_filter`. -/
def ConfigBuilder.enable_packet_filter (b : ConfigBuilder) : ConfigBuilder :=
  { b with config := { b.config with enable_packet_filter := true } }

/-- `ConfigBuilder::request_timeout`. -/
def ConfigBuilder.request_timeout (b : ConfigBuilder) (timeout : Duration) :
    ConfigBuilder :=
  { b with config := { b.config with request_timeout := timeout } }

/-- `ConfigBuilder::vote_duration`. -/
def ConfigBuilder.vote_duration (b : ConfigBuilder) (vote_duration : Duration) :
    ConfigBuilder :=
  { b with config := { b.config with vote_duration := vote_duration } }

/-- `ConfigBuilder::query_peer_timeout`. -/
def ConfigBuilder.query_peer_timeout (b : ConfigBuilder) (timeout : Duration) :
    ConfigBuilder :=
  { b with config := { b.config with query_peer_timeout := timeout } }

/-- `ConfigBuilder::query_timeout`. -/
def ConfigBuilder.query_timeout (b : ConfigBuilder) (timeout : Duration) :
    ConfigBuilder :=
  { b with config := { b.config with query_timeout := timeout } }

/-- `ConfigBuilder::request_retries`. -/
def ConfigBuilder.request_retries (b : ConfigBuilder) (retries : Nat) :
    ConfigBuilder :=
  { b with config := { b.config with request_retries := retries } }

/-- `ConfigBuilder::session_timeout`. -/
def ConfigBuilder.session_timeout (b : ConfigBuilder) (timeout : Duration) :
    ConfigBuilder :=
  { b with config := { b.config with session_timeout := timeout } }

/-- `ConfigBuilder::session_cache_capacity`. -/
def ConfigBuilder.session_cache_capacity (b : ConfigBuilder) (capacity : Nat) :
    ConfigBuilder :=
  { b with config := { b.config with session_cache_capacity := capacity } }

/-- `ConfigBuilder::disable_enr_update`. -/
def ConfigBuilder.disable_enr_update (b : ConfigBuilder) : ConfigBuilder :=
  { b with config := { b.config with enr_update := false } }

/-- `ConfigBuilder::max_nodes_response`. -/
def ConfigBuilder.max_nodes_response (b : ConfigBuilder) (max : Nat) :
    ConfigBuilder :=
  { b with config := { b.config with max_nodes_response := max } }

/-- `ConfigBuilder::enr_peer_update_min`: panics (embedded: `none`) when
the given minimum is less than 2, since that would cause issues with
discovery with peers behind NAT. -/
def ConfigBuilder.enr_peer_update_min (b : ConfigBuilder) (min : Nat) :
    Option ConfigBuilder :=
  if min < 2 then
    none
  else
    some { b with config := { b.config with enr_peer_update_min := min } }

/-- `ConfigBuilder::query_parallelism`. -/
def ConfigBuilder.query_parallelism (b : ConfigBuilder) (parallelism : Nat) :
    ConfigBuilder :=
  { b with config := { b.config with query_parallelism := parallelism } }

/-- `ConfigBuilder::ip_limit`. -/
def ConfigBuilder.ip_limit (b : ConfigBuilder) : ConfigBuilder :=
  { b with config := { b.config with ip_limit := true } }

/-- `ConfigBuilder::incoming_bucket_limit`. -/
def ConfigBuilder.incoming_bucket_limit (b : ConfigBuilder) (limit : Nat) :
    ConfigBuilder :=
  { b with config := { b.config with incoming_bucket_limit := limit } }

/-- `ConfigBuilder::table_filter`. -/
def ConfigBuilder.table_filter (b : ConfigBuilder) (filter : Enr → Bool) :
    ConfigBuilder :=
  { b with config := { b.config with table_filter := filter } }

/-- `ConfigBuilder::ping_interval`. -/
def ConfigBuilder.ping_interval (b : ConfigBuilder) (interval : Duration) :
    ConfigBuilder :=
  { b with config := { b.config with ping_interval := interval } }

/-- `ConfigBuilder::disable_report_discovered_peers`. -/
def ConfigBuilder.disable_report_discovered_peers (b : ConfigBuilder) :
    ConfigBuilder :=
  { b with config := { b.config with report_discovered_peers := false } }

/-- `ConfigBuilder::filter_rate_limiter`. -/
def ConfigBuilder.filter_rate_limiter (b : ConfigBuilder)
    (rate_limiter : Option RateLimiter) : ConfigBuilder :=
  { b with config := { b.config with filter_rate_limiter := rate_limiter } }

/-- `ConfigBuilder::filter_max_nodes_per_ip`. -/
def ConfigBuilder.filter_max_nodes_per_ip (b : ConfigBuilder)
    (max_nodes_per_ip : Option Nat) : ConfigBuilder :=
  { b with config := { b.config with filter_max_nodes_per_ip := max_nodes_per_ip } }

/-- `ConfigBuilder::filter_max_bans_per_ip`. -/
def ConfigBuilder.filter_max_bans_per_ip (b : ConfigBuilder)
    (max_bans_per_ip : Option Nat) : ConfigBuilder :=
  { b with config := { b.config with filter_max_bans_per_ip := max_bans_per_ip } }

/-- `ConfigBuilder::permit_ban_list`. -/
def ConfigBuilder.permit_ban_list (b : ConfigBuilder) (list : PermitBanList) :
    ConfigBuilder :=
  { b with config := { b.config with permit_ban_list := list } }

/-- `ConfigBuilder::ban_duration`. -/
def ConfigBuilder.ban_duration (b : ConfigBuilder) (ban_duration : Option Duration) :
    ConfigBuilder :=
  { b with config := { b.config with ban_duration := ban_duration } }

/-- `ConfigBuilder::auto_nat_listen_duration`. -/
def ConfigBuilder.auto_nat_listen_duration (b : ConfigBuilder)
    (auto_nat_listen_duration : Option Duration) : ConfigBuilder :=
  { b with config := { b.config with auto_nat_listen_duration := auto_nat_listen_duration } }

/-- `ConfigBuilder::executor`. -/
def ConfigBuilder.executor (b : ConfigBuilder) (executor : Executor) :
    ConfigBuilder :=
  { b with config := { b.config with executor := some executor } }

/-- `ConfigBuilder::allowed_cidr`. -/
def ConfigBuilder.allowed_cidr (b : ConfigBuilder) (allowed_cidr : Ipv4Cidr) :
    ConfigBuilder :=
  { b with config := { b.config with allowed_cidr := some allowed_cidr } }

/-- The first step of `ConfigBuilder::build`: if an executor is not
provided, fill in the default `TokioExecutor` (a mutation of the held
config, since `build` takes `&mut self`). -/
def ConfigBuilder.buildConfig (b : ConfigBuilder) : Config :=
  if b.config.executor.isNone then
    { b.config with executor := some Executor.tokioExecutor }
  else
    b.config

/-- `ConfigBuilder::build`: first fills in the default `TokioExecutor`
when no executor was provided, then asserts `incoming_bucket_limit <=
MAX_NODES_PER_BUCKET` (embedded: `none` on assertion failure), and returns
a clone of the held config together with the mutated builder. -/
def ConfigBuilder.build (b : ConfigBuilder) : Option (Config × ConfigBuilder) :=
  if b.buildConfig.incoming_bucket_limit ≤ MAX_NODES_PER_BUCKET then
    some (b.buildConfig, { config := b.buildConfig })
  else
    none

/-- One call to a `ConfigBuilder` setter method, with its argument.  The
constructors enumerate exactly the setter methods of `ConfigBuilder` in
`src/config.rs` (everything between `new` and `build`). -/
inductive SetterCall where
  | enable_packet_filter
  | request_timeout (timeout : Duration)
  | vote_duration (d : Duration)
  | query_peer_timeout (timeout : Duration)
  | query_timeout (timeout : Duration)
  | request_retries (retries : Nat)
  | session_timeout (timeout : Duration)
  | session_cache_capacity (capacity : Nat)
  | disable_enr_update
  | max_nodes_response (max : Nat)
  | enr_peer_update_min (min : Nat)
  | query_parallelism (parallelism : Nat)
  | ip_limit
  | incoming_bucket_limit (limit : Nat)
  | table_filter (filter : Enr → Bool)
  | ping_interval (interval : Duration)
  | disable_report_discovered_peers
  | filter_rate_limiter (rate_limiter : Option RateLimiter)
  | filter_max_nodes_per_ip (max_nodes_per_ip : Option Nat)
  | filter_max_bans_per_ip (max_bans_per_ip : Option Nat)
  | permit_ban_list (list : PermitBanList)
  | ban_duration (d : Option Duration)
  | auto_nat_listen_duration (d : Option Duration)
  | executor (e : Executor)
  | allowed_cidr (c : Ipv4Cidr)

/-- Apply one setter call to the builder.  All setters succeed except
`enr_peer_update_min`, which panics (here: `none`) on arguments below 2. -/
def applySetter (b : ConfigBuilder) : SetterCall → Option ConfigBuilder
  | .enable_packet_filter => some b.enable_packet_filter
  | .request_timeout timeout => some (b.request_timeout timeout)
  | .vote_duration d => some (b.vote_duration d)
  | .query_peer_timeout timeout => some (b.query_peer_timeout timeout)
  | .query_timeout timeout => some (b.query_timeout timeout)
  | .request_retries retries => some (b.request_retries retries)
  | .session_timeout timeout => some (b.session_timeout timeout)
  | .session_cache_capacity capacity => some (b.session_cache_capacity capacity)
  | .disable_enr_update => some b.disable_enr_update
  | .max_nodes_response max => some (b.max_nodes_response max)
  | .enr_peer_update_min min => b.enr_peer_update_min min
  | .query_parallelism parallelism => some (b.query_parallelism parallelism)
  | .ip_limit => some b.ip_limit
  | .incoming_bucket_limit limit => some (b.incoming_bucket_limit limit)
  | .table_filter filter => some (b.table_filter filter)
  | .ping_interval interval => some (b.ping_interval interval)
  | .disable_report_discovered_peers => some b.disable_report_discovered_peers
  | .filter_rate_limiter rate_limiter => some (b.filter_rate_limiter rate_limiter)
  | .filter_max_nodes_per_ip m => some (b.filter_max_nodes_per_ip m)
  | .filter_max_bans_per_ip m => some (b.filter_max_bans_per_ip m)
  | .permit_ban_list list => some (b.permit_ban_list list)
  | .ban_duration d => some (b.ban_duration d)
  | .auto_nat_listen_duration d => some (b.auto_nat_listen_duration d)
  | .executor e => some (b.executor e)
  | .allowed_cidr c => some (b.allowed_cidr c)

/-- Apply a sequence of setter calls in order; `none` as soon as one
panics. -/
def applyCalls (b : ConfigBuilder) : List SetterCall → Option ConfigBuilder
  | [] => some b
  | call :: rest =>
    match applySetter b call with
    | some b' => applyCalls b' rest
    | none => none

/-- The names of the fields of `Config`, used to state frame properties of
the setters. -/
inductive FieldName where
  | enable_packet_filter
  | request_timeout
  | vote_duration
  | query_peer_timeout
  | query_timeout
  | request_retries
  | session_timeout
  | session_cache_capacity
  | enr_update
  | max_nodes_response
  | enr_peer_update_min
  | query_parallelism
  | ip_limit
  | incoming_bucket_limit
  | table_filter
  | ping_interval
  | report_discovered_peers
  | filter_rate_limiter
  | filter_max_nodes_per_ip
  | filter_max_bans_per_ip
  | permit_ban_list
  | ban_duration
  | auto_nat_listen_duration
  | executor
  | listen_config
  | allowed_cidr
deriving DecidableEq, Repr

/-- Two configs agree on the field of the given name. -/
def fieldEq (a b : Config) : FieldName → Prop
  | .enable_packet_filter => a.enable_packet_filter = b.enable_packet_filter
  | .request_timeout => a.request_timeout = b.request_timeout
  | .vote_duration => a.vote_duration = b.vote_duration
  | .query_peer_timeout => a.query_peer_timeout = b.query_peer_timeout
  | .query_timeout => a.query_timeout = b.query_timeout
  | .request_retries => a.request_retries = b.request_retries
  | .session_timeout => a.session_timeout = b.session_timeout
  | .session_cache_capacity => a.session_cache_capacity = b.session_cache_capacity
  | .enr_update => a.enr_update = b.enr_update
  | .max_nodes_response => a.max_nodes_response = b.max_nodes_response
  | .enr_peer_update_min => a.enr_peer_update_min = b.enr_peer_update_min
  | .query_parallelism => a.query_parallelism = b.query_parallelism
  | .ip_limit => a.ip_limit = b.ip_limit
  | .incoming_bucket_limit => a.incoming_bucket_limit = b.incoming_bucket_limit
  | .table_filter => a.table_filter = b.table_filter
  | .ping_interval => a.ping_interval = b.ping_interval
  | .report_discovered_peers => a.report_discovered_peers = b.report_discovered_peers
  | .filter_rate_limiter => a.filter_rate_limiter = b.filter_rate_limiter
  | .filter_max_nodes_per_ip => a.filter_max_nodes_per_ip = b.filter_max_nodes_per_ip
  | .filter_max_bans_per_ip => a.filter_max_bans_per_ip = b.filter_max_bans_per_ip
  | .permit_ban_list => a.permit_ban_list = b.permit_ban_list
  | .ban_duration => a.ban_duration = b.ban_duration
  | .auto_nat_listen_duration => a.auto_nat_listen_duration = b.auto_nat_listen_duration
  | .executor => a.executor = b.executor
  | .listen_config => a.listen_config = b.listen_config
  | .allowed_cidr => a.allowed_cidr = b.allowed_cidr

/-- The (single) `Config` field a setter call is named after. -/
def SetterCall.target : SetterCall → FieldName
  | .enable_packet_filter => .enable_packet_filter
  | .request_timeout _ => .request_timeout
  | .vote_duration _ => .vote_duration
  | .query_peer_timeout _ => .query_peer_timeout
  | .query_timeout _ => .query_timeout
  | .request_retries _ => .request_retries
  | .session_timeout _ => .session_timeout
  | .session_cache_capacity _ => .session_cache_capacity
  | .disable_enr_update => .enr_update
  | .max_nodes_response _ => .max_nodes_response
  | .enr_peer_update_min _ => .enr_peer_update_min
  | .query_parallelism _ => .query_parallelism
  | .ip_limit => .ip_limit
  | .incoming_bucket_limit _ => .incoming_bucket_limit
  | .table_filter _ => .table_filter
  | .ping_interval _ => .ping_interval
  | .disable_report_discovered_peers => .report_discovered_peers
  | .filter_rate_limiter _ => .filter_rate_limiter
  | .filter_max_nodes_per_ip _ => .filter_max_nodes_per_ip
  | .filter_max_bans_per_ip _ => .filter_max_bans_per_ip
  | .permit_ban_list _ => .permit_ban_list
  | .ban_duration _ => .ban_duration
  | .auto_nat_listen_duration _ => .auto_nat_listen_duration
  | .executor _ => .executor
  | .allowed_cidr _ => .allowed_cidr

/-- Two configs agree on every field except possibly the named one. -/
def fieldsEqExcept (a b : Config) (f : FieldName) : Prop :=
  ∀ g : FieldName, g ≠ f → fieldEq a b g

/-- Written from the spec's words ("a language-agnostic set of named,
defaulted knobs" with the documented default of every knob, the default
executor filled in): the `Config` that building the untouched default
builder is expected to produce, to be compared with the result of
`ConfigBuilder.new` followed by `ConfigBuilder.build`. -/
def builtDefaultConfig (lc : ListenConfig) : Config :=
  { enable_packet_filter := false
    request_timeout := Duration.from_secs 1
    vote_duration := Duration.from_secs 120
    query_peer_timeout := Duration.from_secs 2
    query_timeout := Duration.from_secs 60
    request_retries := 1
    session_timeout := Duration.from_secs 86400
    session_cache_capacity := 1000
    enr_update := true
    max_nodes_response := 16
    enr_peer_update_min := 10
    query_parallelism := 3
    ip_limit := false
    incoming_bucket_limit := 16
    table_filter := fun _ => true
    ping_interval := Duration.from_secs 300
    report_discovered_peers := true
    filter_rate_limiter :=
      some ⟨(10, Duration.from_secs 1), some (8, Duration.from_secs 1),
        some (9, Duration.from_secs 1)⟩
    filter_max_nodes_per_ip := some 10
    filter_max_bans_per_ip := some 5
    permit_ban_list := ⟨[], [], [], []⟩
    ban_duration := some (Duration.from_secs 3600)
    auto_nat_listen_duration := some (Duration.from_secs 300)
    executor := some Executor.tokioExecutor
    listen_config := lc
    allowed_cidr := none }

/-- The builder state left behind by a successful default `build`. -/
def builtDefaultBuilder (lc : ListenConfig) : ConfigBuilder :=
  { config := builtDefaultConfig lc }

/-- A sample listen configuration for concrete instantiations. -/
def sampleListen : ListenConfig :=
  ⟨0, 9000⟩

/-- The executor-filling step of `build` does not change the incoming
bucket limit. -/
theorem buildConfig_incoming (b : ConfigBuilder) :
    b.buildConfig.incoming_bucket_limit = b.config.incoming_bucket_limit := by
  unfold ConfigBuilder.buildConfig
  split <;> rfl

/-- The executor-filling step of `build` does not change the ENR peer
update minimum. -/
theorem buildConfig_enr_min (b : ConfigBuilder) :
    b.buildConfig.enr_peer_update_min = b.config.enr_peer_update_min := by
  unfold ConfigBuilder.buildConfig
  split <;> rfl

/-- After the executor-filling step of `build`, the executor is present. -/
theorem buildConfig_executor_isSome (b : ConfigBuilder) :
    b.buildConfig.executor.isSome = true := by
  unfold ConfigBuilder.buildConfig
  cases hx : b.config.executor <;> simp [hx]

/-- When the builder already holds an executor, the executor-filling step
of `build` leaves the config unchanged. -/
theorem buildConfig_of_executor_isSome (b : ConfigBuilder)
    (h : b.config.executor.isSome = true) : b.buildConfig = b.config := by
  unfold ConfigBuilder.buildConfig
  cases hx : b.config.executor with
  | none => rw [hx] at h; simp at h
  | some e => simp [hx]

/-- Characterization of a successful `build`: the returned config is the
executor-filled config, the returned builder holds that same config, and
the incoming bucket limit assertion passed. -/
theorem build_eq_some (b : ConfigBuilder) (c : Config) (b' : ConfigBuilder)
    (h : b.build = some (c, b')) :
    c = b.buildConfig ∧ b' = { config := b.buildConfig } ∧
      c.incoming_bucket_limit ≤ MAX_NODES_PER_BUCKET := by
  unfold ConfigBuilder.build at h
  split at h
  · next hle =>
    injection h with h
    obtain ⟨h1, h2⟩ := Prod.mk.injEq .. ▸ h
    exact ⟨h1.symm, h2.symm, h1.symm ▸ hle⟩
  · exact absurd h (by simp)

/-- Every setter call that succeeds preserves the invariant that the ENR
peer update minimum is at least 2 (the only setter that writes that field
rejects smaller values). -/
theorem applySetter_preserves_enr_min (b : ConfigBuilder) (call : SetterCall)
    (b' : ConfigBuilder) (h : applySetter b call = some b')
    (hb : 2 ≤ b.config.enr_peer_update_min) :
    2 ≤ b'.config.enr_peer_update_min := by
  cases call <;>
    simp only [applySetter, ConfigBuilder.enable_packet_filter,
      ConfigBuilder.request_timeout, ConfigBuilder.vote_duration,
      ConfigBuilder.query_peer_timeout, ConfigBuilder.query_timeout,
      ConfigBuilder.request_retries, ConfigBuilder.session_timeout,
      ConfigBuilder.session_cache_capacity, ConfigBuilder.disable_enr_update,
      ConfigBuilder.max_nodes_response, ConfigBuilder.enr_peer_update_min,
      ConfigBuilder.query_parallelism, ConfigBuilder.ip_limit,
      ConfigBuilder.incoming_bucket_limit, ConfigBuilder.table_filter,
      ConfigBuilder.ping_interval, ConfigBuilder.disable_report_discovered_peers,
      ConfigBuilder.filter_rate_limiter, ConfigBuilder.filter_max_nodes_per_ip,
      ConfigBuilder.filter_max_bans_per_ip, ConfigBuilder.permit_ban_list,
      ConfigBuilder.ban_duration, ConfigBuilder.auto_nat_listen_duration,
      ConfigBuilder.executor, ConfigBuilder.allowed_cidr,
      Option.some.injEq] at h
  case enr_peer_update_min m =>
    split at h
    · exact absurd h (by simp)
    · next hm =>
      injection h with h
      subst h
      exact Nat.not_lt.mp hm
  all_goals subst h; exact hb

/-- A successful sequence of setter calls preserves the invariant that the
ENR peer update minimum is at least 2. -/
theorem applyCalls_preserves_enr_min (calls : List SetterCall)
    (b b' : ConfigBuilder) (h : applyCalls b calls = some b')
    (hb : 2 ≤ b.config.enr_peer_update_min) :
    2 ≤ b'.config.enr_peer_update_min := by
  induction calls generalizing b with
  | nil =>
    simp only [applyCalls, Option.some.injEq] at h
    subst h
    exact hb
  | cons call rest ih =>
    simp only [applyCalls] at h
    cases hc : applySetter b call with
    | none => rw [hc] at h; exact absurd h (by simp)
    | some b1 =>
      rw [hc] at h
      exact ih b1 h (applySetter_preserves_enr_min b call b1 hc hb)

/-- Claim C1: for every builder configuration in which
`incoming_bucket_limit` exceeds the total bucket capacity
`MAX_NODES_PER_BUCKET` (16), `ConfigBuilder::build` rejects it at
configuration-build time, failing fast: it does not return a `Config`. -/
theorem build_rejects_oversized_incoming_limit (b : ConfigBuilder)
    (h : MAX_NODES_PER_BUCKET < b.config.incoming_bucket_limit) :
    b.build = none := by
  have hnot : ¬ b.buildConfig.incoming_bucket_limit ≤ MAX_NODES_PER_BUCKET := by
    rw [buildConfig_incoming]
    omega
  unfold ConfigBuilder.build
  exact if_neg hnot

/-- Witness for C1: setting an incoming bucket limit of 17 on the default
builder makes `build` fail. -/
theorem build_rejects_oversized_incoming_limit_witness :
    ((ConfigBuilder.new sampleListen).incoming_bucket_limit 17).build = none :=
  build_rejects_oversized_incoming_limit
    ((ConfigBuilder.new sampleListen).incoming_bucket_limit 17) (by decide)

/-- Claim C2: every `Config` produced by `ConfigBuilder` — the default
from `ConfigBuilder::new` followed by any sequence of setter calls and then
`build` — satisfies `incoming_bucket_limit ≤ MAX_NODES_PER_BUCKET`. -/
theorem built_config_incoming_limit_le_bucket_capacity
    (lc : ListenConfig) (calls : List SetterCall) (b : ConfigBuilder)
    (c : Config) (b' : ConfigBuilder)
    (h1 : applyCalls (ConfigBuilder.new lc) calls = some b)
    (h2 : b.build = some (c, b')) :
    c.incoming_bucket_limit ≤ MAX_NODES_PER_BUCKET :=
  (build_eq_some b c b' h2).2.2

/-- Witness for C2: building the untouched default builder yields a config
whose incoming bucket limit is within the bucket capacity. -/
theorem built_config_incoming_limit_le_bucket_capacity_witness :
    (builtDefaultConfig sampleListen).incoming_bucket_limit ≤
      MAX_NODES_PER_BUCKET :=
  built_config_incoming_limit_le_bucket_capacity sampleListen []
    (ConfigBuilder.new sampleListen) (builtDefaultConfig sampleListen)
    (builtDefaultBuilder sampleListen) rfl rfl

/-- Claim C3: an update-quorum threshold below 2 is rejected by the
`enr_peer_update_min` setter (the call fails fast and yields no builder),
and consequently no `Config` ever produced through the builder API has
`enr_peer_update_min < 2`. -/
theorem enr_peer_update_min_at_least_two :
    (∀ (b : ConfigBuilder) (min : Nat), min < 2 →
      b.enr_peer_update_min min = none) ∧
    (∀ (lc : ListenConfig) (calls : List SetterCall) (b : ConfigBuilder)
      (c : Config) (b' : ConfigBuilder),
      applyCalls (ConfigBuilder.new lc) calls = some b →
      b.build = some (c, b') →
      2 ≤ c.enr_peer_update_min) := by
  constructor
  · intro b min hmin
    unfold ConfigBuilder.enr_peer_update_min
    exact if_pos hmin
  · intro lc calls b c b' h1 h2
    obtain ⟨hc, -, -⟩ := build_eq_some b c b' h2
    have hb : 2 ≤ b.config.enr_peer_update_min :=
      applyCalls_preserves_enr_min calls (ConfigBuilder.new lc) b h1
        (by show (2 : Nat) ≤ 10; norm_num)
    rw [hc, buildConfig_enr_min]
    exact hb

/-- Witness for C3: passing 1 to the setter fails, and the default build
yields an ENR peer update minimum of at least 2. -/
theorem enr_peer_update_min_at_least_two_witness :
    (ConfigBuilder.new sampleListen).enr_peer_update_min 1 = none ∧
    2 ≤ (builtDefaultConfig sampleListen).enr_peer_update_min :=
  ⟨enr_peer_update_min_at_least_two.1 (ConfigBuilder.new sampleListen) 1
      (by decide),
    enr_peer_update_min_at_least_two.2 sampleListen []
      (ConfigBuilder.new sampleListen) (builtDefaultConfig sampleListen)
      (builtDefaultBuilder sampleListen) rfl rfl⟩

/-- Claim C4: in the default configuration produced by
`ConfigBuilder::new`, the per-peer response timeout is 2 seconds, the
overall query timeout is 60 seconds, and the former is strictly shorter
than the latter. -/
theorem default_query_peer_timeout_lt_query_timeout (lc : ListenConfig) :
    (ConfigBuilder.new lc).config.query_peer_timeout = Duration.from_secs 2 ∧
    (ConfigBuilder.new lc).config.query_timeout = Duration.from_secs 60 ∧
    (ConfigBuilder.new lc).config.query_peer_timeout <
      (ConfigBuilder.new lc).config.query_timeout := by
  refine ⟨rfl, rfl, ?_⟩
  show (2 * 1000000000 : Nat) < 60 * 1000000000
  norm_num

/-- Claim C5: the default table-acceptance filter installed by
`ConfigBuilder::new` accepts every node record. -/
theorem default_table_filter_accepts_all (lc : ListenConfig) (e : Enr) :
    (ConfigBuilder.new lc).config.table_filter e = true := rfl

/-- Claim C6: the default inbound rate limiter built by
`ConfigBuilder::new` is present and configured at all three granularities
independently: total 10 per second, per-node 8 per second, per-IP 9 per
second. -/
theorem default_rate_limiter_three_granularities (lc : ListenConfig) :
    (ConfigBuilder.new lc).config.filter_rate_limiter =
      some ⟨(10, Duration.from_secs 1), some (8, Duration.from_secs 1),
        some (9, Duration.from_secs 1)⟩ := rfl

/-- Claim C7: `ConfigBuilder::new` assigns a default value to every
configuration knob, so a `Config` can be built without setting any knob
explicitly: building the untouched default builder succeeds and returns
exactly the spec's documented defaults (with the default executor filled
in). -/
theorem new_assigns_all_defaults_build_succeeds (lc : ListenConfig) :
    (ConfigBuilder.new lc).build =
      some (builtDefaultConfig lc, builtDefaultBuilder lc) := rfl

/-- Claim C8: each `ConfigBuilder` setter call modifies only its own named
field of the held `Config`; every other configuration field is unchanged
by the call. -/
theorem setters_modify_only_named_field (b : ConfigBuilder) (call : SetterCall)
    (b' : ConfigBuilder) (h : applySetter b call = some b') :
    fieldsEqExcept b.config b'.config call.target := by
  cases call <;>
    simp only [applySetter, ConfigBuilder.enable_packet_filter,
      ConfigBuilder.request_timeout, ConfigBuilder.vote_duration,
      ConfigBuilder.query_peer_timeout, ConfigBuilder.query_timeout,
      ConfigBuilder.request_retries, ConfigBuilder.session_timeout,
      ConfigBuilder.session_cache_capacity, ConfigBuilder.disable_enr_update,
      ConfigBuilder.max_nodes_response, ConfigBuilder.enr_peer_update_min,
      ConfigBuilder.query_parallelism, ConfigBuilder.ip_limit,
      ConfigBuilder.incoming_bucket_limit, ConfigBuilder.table_filter,
      ConfigBuilder.ping_interval, ConfigBuilder.disable_report_discovered_peers,
      ConfigBuilder.filter_rate_limiter, ConfigBuilder.filter_max_nodes_per_ip,
      ConfigBuilder.filter_max_bans_per_ip, ConfigBuilder.permit_ban_list,
      ConfigBuilder.ban_duration, ConfigBuilder.auto_nat_listen_duration,
      ConfigBuilder.executor, ConfigBuilder.allowed_cidr,
      Option.some.injEq] at h
  case enr_peer_update_min m =>
    split at h
    · exact absurd h (by simp)
    · injection h with h
      subst h
      intro g hg
      cases g <;> first | exact absurd rfl hg | rfl
  all_goals
    subst h
    intro g hg
    cases g <;> first | exact absurd rfl hg | rfl

/-- Witness for C8: setting the request timeout on the default builder
leaves every other field unchanged. -/
theorem setters_modify_only_named_field_witness :
    fieldsEqExcept (ConfigBuilder.new sampleListen).config
      ((ConfigBuilder.new sampleListen).request_timeout
        (Duration.from_secs 7)).config
      FieldName.request_timeout :=
  setters_modify_only_named_field (ConfigBuilder.new sampleListen)
    (SetterCall.request_timeout (Duration.from_secs 7))
    ((ConfigBuilder.new sampleListen).request_timeout (Duration.from_secs 7))
    rfl

/-- Claim C9: every `Config` returned by `ConfigBuilder::build` has a
non-`none` executor; and when no custom executor was set before `build`,
the filled-in executor is the default `TokioExecutor`. -/
theorem built_config_executor_isSome (b : ConfigBuilder) (c : Config)
    (b' : ConfigBuilder) (h : b.build = some (c, b')) :
    c.executor.isSome = true ∧
    (b.config.executor = none → c.executor = some Executor.tokioExecutor) := by
  obtain ⟨hc, -, -⟩ := build_eq_some b c b' h
  subst hc
  refine ⟨buildConfig_executor_isSome b, fun hex => ?_⟩
  simp [ConfigBuilder.buildConfig, hex]

/-- Witness for C9: building the untouched default builder (which holds no
custom executor) yields a config whose executor is the default
`TokioExecutor`. -/
theorem built_config_executor_isSome_witness :
    (builtDefaultConfig sampleListen).executor.isSome = true ∧
    ((ConfigBuilder.new sampleListen).config.executor = none →
      (builtDefaultConfig sampleListen).executor =
        some Executor.tokioExecutor) :=
  built_config_executor_isSome (ConfigBuilder.new sampleListen)
    (builtDefaultConfig sampleListen) (builtDefaultBuilder sampleListen) rfl

/-- Claim C10: `ConfigBuilder::build` is idempotent with respect to
configuration values: when `build` succeeds, building again without
intervening setter calls succeeds and returns the same config and leaves
the builder in the same state. -/
theorem build_idempotent (b : ConfigBuilder) (c : Config) (b' : ConfigBuilder)
    (h : b.build = some (c, b')) : b'.build = some (c, b') := by
  obtain ⟨hc, hb', hle⟩ := build_eq_some b c b' h
  have hs := buildConfig_executor_isSome b
  subst hc
  subst hb'
  have hbc : ({ config := b.buildConfig } : ConfigBuilder).buildConfig =
      b.buildConfig :=
    buildConfig_of_executor_isSome { config := b.buildConfig } hs
  unfold ConfigBuilder.build
  rw [hbc]
  exact if_pos hle

/-- Witness for C10: building the builder left behind by the default build
returns the same config and builder again. -/
theorem build_idempotent_witness :
    (builtDefaultBuilder sampleListen).build =
      some (builtDefaultConfig sampleListen, builtDefaultBuilder sampleListen) :=
  build_idempotent (ConfigBuilder.new sampleListen)
    (builtDefaultConfig sampleListen) (builtDefaultBuilder sampleListen) rfl

end Discv5
